import Mathlib

/-
  Verification development for the technique-matching search engine and the
  resumable workflow state machine of the agentic attack-tree generator.

  Shallow embedding conventions:
  - Python floats are modelled as rationals (Rat); the cosine-similarity
    kernel itself (numpy dot products with square-root norms) is kept as an
    abstract parameter simFn, since the claims under study are about the
    selection, ordering, thresholding, boosting and state-machine logic,
    not about particular floating-point values.
  - numpy argsort is modelled as the deterministic stable ascending index
    sort: indices are ordered by value, ties by ascending index.
  - Python slicing xs[-k:] is modelled faithfully, including the k = 0 case
    in which -0 is 0 and the slice is the whole list.
  - File-system state (existence, modification times, load outcomes) and
    external collaborators (embedding model, per-stage tools) are explicit
    environment records; fallible calls are Except values.
  - Stateful orchestrator code is modelled in an exception-over-state monad
    so that mutations performed before an exception survive it, as in
    Python; checkpoint writes are recorded as a list of state snapshots.
-/

namespace ThreatForest

/-! ## Workflow stages and state (modules/core/state.py) -/

/-- WorkflowStage enumeration from modules/core/state.py. -/
inductive WorkflowStage where
  | SETUP
  | CONTEXT_ANALYSIS
  | EXTRACTION
  | TREE_GENERATION
  | MAPPING
  | SUMMARY
  | COMPLETE
deriving DecidableEq, Repr, Inhabited, Fintype

/-- ThreatForestState from modules/core/state.py.  Timestamp strings are
carried but never interpreted; per-stage result payloads are opaque to the
state machine and modelled as strings / string lists. -/
structure ThreatForestState where
  current_stage : WorkflowStage
  started_at : String
  last_updated : String
  project_path : String
  aws_profile : Option String
  bedrock_model : String
  setup_complete : Bool
  context_complete : Bool
  extraction_complete : Bool
  tree_generation_complete : Bool
  mapping_complete : Bool
  summary_complete : Bool
  setup_result : Option String
  context_files : Option String
  extracted_info : Option String
  attack_trees : List String
  mapped_trees : List String
  output_files : List String
  errors : List String
deriving DecidableEq, Repr

/-- Allowed-predecessor table from can_transition_to in state.py. -/
def transitions (stage : WorkflowStage) : List WorkflowStage :=
  match stage with
  | .SETUP => []
  | .CONTEXT_ANALYSIS => [.SETUP]
  | .EXTRACTION => [.CONTEXT_ANALYSIS]
  | .TREE_GENERATION => [.EXTRACTION]
  | .MAPPING => [.TREE_GENERATION]
  | .SUMMARY => [.MAPPING, .TREE_GENERATION]
  | .COMPLETE => [.SUMMARY]

/-- ThreatForestState.can_transition_to from state.py. -/
def ThreatForestState.can_transition_to (s : ThreatForestState) (stage : WorkflowStage) : Bool :=
  decide (s.current_stage ∈ transitions stage) || decide (s.current_stage = stage)

/-- Modelled from the spec (claim wording): the immediate predecessor of a
stage in the fixed total order.  Used only to state the transition claim
against the source definition. -/
def immediate_predecessor : WorkflowStage → Option WorkflowStage
  | .SETUP => none
  | .CONTEXT_ANALYSIS => some .SETUP
  | .EXTRACTION => some .CONTEXT_ANALYSIS
  | .TREE_GENERATION => some .EXTRACTION
  | .MAPPING => some .TREE_GENERATION
  | .SUMMARY => some .MAPPING
  | .COMPLETE => some .SUMMARY

/-- Modelled from the spec (claim wording): a transition into target is
legal exactly when current is the immediate predecessor of target, or
current equals target, or target is summary and current is
tree_generation. -/
def specLegalTransition (current target : WorkflowStage) : Bool :=
  decide (immediate_predecessor target = some current) || decide (current = target) ||
    (decide (target = WorkflowStage.SUMMARY) && decide (current = WorkflowStage.TREE_GENERATION))

/-- Stage order table from is_valid_for_resume in state.py. -/
def stage_order : WorkflowStage → Nat
  | .SETUP => 0
  | .CONTEXT_ANALYSIS => 1
  | .EXTRACTION => 2
  | .TREE_GENERATION => 3
  | .MAPPING => 4
  | .SUMMARY => 5
  | .COMPLETE => 6

/-- Consistency checks list from is_valid_for_resume in state.py: for each
listed stage, the completion flag that must already hold once
current_stage has reached that stage. -/
def stage_checks (s : ThreatForestState) : List (WorkflowStage × Bool × String) :=
  [(.CONTEXT_ANALYSIS, s.setup_complete, "Setup incomplete"),
   (.EXTRACTION, s.context_complete, "Context analysis incomplete"),
   (.TREE_GENERATION, s.extraction_complete, "Extraction incomplete"),
   (.MAPPING, s.tree_generation_complete, "Tree generation incomplete"),
   (.SUMMARY, s.tree_generation_complete, "Tree generation incomplete")]

/-- Loop body of is_valid_for_resume: the first failing check, if any. -/
def firstInvalid (current_order : Nat) :
    List (WorkflowStage × Bool × String) → Option String
  | [] => none
  | (st, flag, msg) :: rest =>
      if decide (stage_order st ≤ current_order) && !flag then some msg
      else firstInvalid current_order rest

/-- ThreatForestState.is_valid_for_resume from state.py, returning the
validity flag together with the message. -/
def ThreatForestState.is_valid_for_resume (s : ThreatForestState) : Bool × String :=
  if s.current_stage = WorkflowStage.COMPLETE then (false, "Workflow already complete")
  else
    match firstInvalid (stage_order s.current_stage) (stage_checks s) with
    | some msg => (false, "Invalid state: " ++ msg)
    | none => (true, "State valid for resume")

/-! ## Graph data types (modules/graph/types.py) -/

/-- TechniqueNode from modules/graph/types.py.  The open metadata bag is
omitted: no claim consults it. -/
structure TechniqueNode where
  id : String
  stix_id : String
  name : String
  description : String
  technique_ids : List String
  tactics : List String
  embedding : List Rat
deriving DecidableEq, Repr, Inhabited

/-- TechniqueNode.primary_technique_id from types.py. -/
def TechniqueNode.primary_technique_id (t : TechniqueNode) : String :=
  t.technique_ids.headD ""

/-- MitreAttackGraph from modules/graph/types.py (metadata bag omitted). -/
structure MitreAttackGraph where
  techniques : List TechniqueNode
  embedding_model : String
  embedding_dim : Nat
  created_at : String
  stix_version : String
deriving DecidableEq, Repr, Inhabited

/-! ## Vector search (modules/graph/vector_search.py) -/

/-- Confidence bucketing shared by VectorSearch and TTCMatcher. -/
def confidence_level (similarity : Rat) : String :=
  if similarity > 7/10 then "high"
  else if similarity > 5/10 then "medium"
  else "low"

/-- Result record built by VectorSearch.search. -/
structure MatchResult where
  technique : TechniqueNode
  similarity : Rat
  confidence : String
deriving DecidableEq, Repr, Inhabited

/-- Comparator realising the stable ascending argsort on indices i and j of
the similarity list: by value, ties by ascending index.  This relation is
a linear order on indices, so the sorted permutation of the index range is
unique and the choice of sorting algorithm below is immaterial. -/
def argsortRel (sims : List Rat) (i j : Nat) : Prop :=
  sims.getD i 0 < sims.getD j 0 ∨ (sims.getD i 0 = sims.getD j 0 ∧ i ≤ j)

instance argsortRelDec (sims : List Rat) : DecidableRel (argsortRel sims) :=
  fun _ _ => inferInstanceAs (Decidable (_ ∨ _))

instance argsortRelTotal (sims : List Rat) : IsTotal Nat (argsortRel sims) := by
  constructor
  intro a b
  rcases lt_trichotomy (sims.getD a 0) (sims.getD b 0) with h | h | h
  · exact Or.inl (Or.inl h)
  · rcases Nat.le_total a b with hab | hab
    · exact Or.inl (Or.inr ⟨h, hab⟩)
    · exact Or.inr (Or.inr ⟨h.symm, hab⟩)
  · exact Or.inr (Or.inl h)

instance argsortRelTrans (sims : List Rat) : IsTrans Nat (argsortRel sims) := by
  constructor
  intro a b c hab hbc
  rcases hab with h1 | ⟨h1, h2⟩ <;> rcases hbc with h3 | ⟨h3, h4⟩
  · exact Or.inl (lt_trans h1 h3)
  · exact Or.inl (h3 ▸ h1)
  · exact Or.inl (h1 ▸ h3)
  · exact Or.inr ⟨h1.trans h3, Nat.le_trans h2 h4⟩

/-- Model of numpy argsort: the indices 0 .. n-1 sorted ascending by value,
ties by original index (the deterministic stable ascending argsort). -/
def argsort (sims : List Rat) : List Nat :=
  List.insertionSort (argsortRel sims) (List.range sims.length)

/-- Python slice xs[-k:].  For k = 0 the slice index -0 is 0 and the whole
list is taken; otherwise the last k elements (or all, when k exceeds the
length). -/
def takeLast (l : List Nat) (k : Nat) : List Nat :=
  if k = 0 then l else l.drop (l.length - k)

/-- Similarity row: one abstract-kernel similarity per graph row, in node
order, as computed against the embedding matrix. -/
def simsOf (graph : MitreAttackGraph) (simFn : List Rat → List Rat → Rat)
    (query_embedding : List Rat) : List Rat :=
  graph.techniques.map (fun t => simFn query_embedding t.embedding)

/-- Index selection of VectorSearch.search: argsort ascending, slice the
last top_k, reverse to descending. -/
def searchIndices (sims : List Rat) (top_k : Nat) : List Nat :=
  (takeLast (argsort sims) top_k).reverse

/-- Result record built for one selected index. -/
def mkSearchResult (graph : MitreAttackGraph) (sims : List Rat) (idx : Nat) : MatchResult :=
  { technique := graph.techniques.getD idx default,
    similarity := sims.getD idx 0,
    confidence := confidence_level (sims.getD idx 0) }

/-- VectorSearch.search from vector_search.py: empty query short-circuit,
similarity row, descending top-k index selection, then the minimum
similarity filter applied while building results. -/
def VectorSearch.search (graph : MitreAttackGraph) (simFn : List Rat → List Rat → Rat)
    (query_embedding : List Rat) (top_k : Nat) (min_similarity : Rat) : List MatchResult :=
  if query_embedding = [] then []
  else
    let sims := simsOf graph simFn query_embedding
    (searchIndices sims top_k).filterMap (fun idx =>
      if sims.getD idx 0 < min_similarity then none
      else some (mkSearchResult graph sims idx))

/-! ## TTC matcher (modules/workflow/ttc_mappings/matcher.py) -/

/-- Fixed domain-term vocabulary AWS_TERMS from matcher.py. -/
def AWS_TERMS : List String :=
  ["aws", "s3", "ec2", "iam", "lambda", "dynamodb", "rds", "ecs",
   "cloudformation", "cloudwatch", "sns", "sqs", "kinesis", "athena",
   "glue", "emr", "eks", "fargate", "bucket", "instance", "role",
   "cloudtrail", "kms", "secrets", "parameter", "api", "gateway"]

/-- Python substring membership, term in text, on the character lists. -/
def strContains (hay needle : String) : Bool :=
  decide (List.IsInfix needle.data hay.data)

/-- Python str.lower, modelled character-wise (the fixed vocabulary is
ASCII, where the two agree). -/
def strLower (s : String) : String :=
  String.mk (s.data.map Char.toLower)

/-- Lower-cased name-and-description text of a technique, as assembled in
matcher.py before term matching. -/
def techText (technique : TechniqueNode) : String :=
  strLower (technique.name ++ " " ++ technique.description)

/-- Domain terms present in the lower-cased step text. -/
def awsTermsInStep (step : String) : List String :=
  AWS_TERMS.filter (fun term => strContains (strLower step) term)

/-- Number of domain terms shared by the step text and the technique text,
matched case-insensitively: the matching_terms count of matcher.py. -/
def sharedTermCount (step : String) (technique : TechniqueNode) : Nat :=
  ((awsTermsInStep step).filter (fun term => strContains (techText technique) term)).length

/-- Match record emitted by TTCMatcher.match_steps. -/
structure TTCMatch where
  technique_id : String
  name : String
  description : String
  kill_chain_phases : List String
  similarity : Rat
  confidence : String
deriving DecidableEq, Repr, Inhabited

/-- Construction of one emitted match record from matcher.py. -/
def mkTTCMatch (technique : TechniqueNode) (similarity : Rat) : TTCMatch :=
  { technique_id := technique.primary_technique_id,
    name := technique.name,
    description := technique.description,
    kill_chain_phases := technique.tactics,
    similarity := similarity,
    confidence := confidence_level similarity }

/-- Per-candidate boosting and re-filter step of TTCMatcher.match_steps:
when domain terms are present in the step and shared with the technique
text, the similarity is multiplied by min(1 + 0.1 n, 1.5) and the minimum
similarity filter is re-applied to the boosted value. -/
def TTCMatcher.boostResult (min_similarity : Rat) (aws_terms_in_step : List String)
    (technique : TechniqueNode) (similarity : Rat) : Option TTCMatch :=
  if aws_terms_in_step = [] then some (mkTTCMatch technique similarity)
  else
    let matching_terms :=
      aws_terms_in_step.filter (fun term => strContains (techText technique) term)
    if matching_terms = [] then some (mkTTCMatch technique similarity)
    else
      let boost : Rat := 1 + (1/10) * (matching_terms.length : Rat)
      let boosted := similarity * min boost (3/2)
      if boosted < min_similarity then none
      else some (mkTTCMatch technique boosted)

/-- Environment of an initialised TTCMatcher: the graph, the abstract
similarity kernel, the per-step embedding function (an empty vector marks
an embedding failure) and the minimum-similarity floor. -/
structure TTCMatcherEnv where
  graph : MitreAttackGraph
  simFn : List Rat → List Rat → Rat
  get_embedding : String → List Rat
  min_similarity : Rat

/-- Per-step grouping emitted by TTCMatcher.match_steps.  The Python dict
key named matches is rendered matchesList, since matches is a reserved
word in Lean. -/
structure StepMatches where
  attack_step : String
  matchesList : List TTCMatch
deriving DecidableEq, Repr, Inhabited

/-- Processing of one attack step in TTCMatcher.match_steps: embed, search
with the floor, boost each candidate, and drop the step entirely when no
matches survive (also when embedding fails). -/
def TTCMatcher.match_step (env : TTCMatcherEnv) (top_k : Nat) (step : String) :
    Option StepMatches :=
  let step_embedding := env.get_embedding step
  if step_embedding = [] then none
  else
    let search_results :=
      VectorSearch.search env.graph env.simFn step_embedding top_k env.min_similarity
    let aws_terms_in_step := awsTermsInStep step
    let kept := search_results.filterMap (fun r =>
      TTCMatcher.boostResult env.min_similarity aws_terms_in_step r.technique r.similarity)
    if kept = [] then none
    else some { attack_step := step, matchesList := kept }

/-- TTCMatcher.match_steps from matcher.py. -/
def TTCMatcher.match_steps (env : TTCMatcherEnv) (attack_steps : List String)
    (top_k : Nat) : List StepMatches :=
  attack_steps.filterMap (TTCMatcher.match_step env top_k)

/-! ## Graph store (modules/graph/graph_store.py) -/

/-- File-system view seen by one GraphStore call: existence of the graph
file, the (deterministic) outcome of loading it, existence of the source
bundle, and the two modification times. -/
structure GraphFS where
  graph_exists : Bool
  load_result : Except String MitreAttackGraph
  stix_exists : Bool
  graph_mtime : Int
  stix_mtime : Int

/-- Timestamp comparison tail of GraphStore.is_stale: a missing bundle is
never stale; otherwise stale exactly when the bundle is newer. -/
def timestampCheck (fs : GraphFS) : Bool :=
  if fs.stix_exists = false then false
  else decide (fs.graph_mtime < fs.stix_mtime)

/-- GraphStore.is_stale from graph_store.py.  The expected model argument
is optional and, as in Python, an empty string is falsy and skips the
embedding-model validation, as does passing no model at all; a load
failure during validation counts as stale. -/
def GraphStore.is_stale (fs : GraphFS) (expected_embedding_model : Option String) : Bool :=
  if fs.graph_exists = false then true
  else
    match expected_embedding_model with
    | none => timestampCheck fs
    | some m =>
      if m = "" then timestampCheck fs
      else
        match fs.load_result with
        | .ok graph => if graph.embedding_model ≠ m then true else timestampCheck fs
        | .error _ => true

/-! ## Graph builder (modules/graph/graph_builder.py) -/

/-- Environment of GraphBuilder.get_or_build: the file-system view and the
outcome of building a fresh graph from the bundle.  Saving is modelled as
recording the saved graph (the save path re-raises on failure and no claim
concerns it). -/
structure BuildEnv where
  fs : GraphFS
  build_result : Except String MitreAttackGraph

/-- Outcome of get_or_build: the returned graph or propagated error, plus
the list of graphs saved to the store during the call. -/
structure GetOrBuildOut where
  result : Except String MitreAttackGraph
  saved : List MitreAttackGraph

/-- Build-and-save tail of get_or_build. -/
def buildAndSave (env : BuildEnv) : GetOrBuildOut :=
  match env.build_result with
  | .ok g => { result := .ok g, saved := [g] }
  | .error e => { result := .error e, saved := [] }

/-- GraphBuilder.get_or_build from graph_builder.py: decide need_build from
force_rebuild, store existence and staleness; on the load path a load
failure falls back to the build-and-save path instead of propagating. -/
def GraphBuilder.get_or_build (env : BuildEnv) (embedding_model : String)
    (force_rebuild : Bool) : GetOrBuildOut :=
  let need_build := force_rebuild || !env.fs.graph_exists ||
    GraphStore.is_stale env.fs (some embedding_model)
  if need_build = false then
    match env.fs.load_result with
    | .ok g => { result := .ok g, saved := [] }
    | .error _ => buildAndSave env
  else buildAndSave env

/-! ## Embedding service (modules/graph/embedding_service.py) -/

/-- Environment of EmbeddingService: whether the lazy model load succeeds,
and the batch-encode call of the underlying model. -/
structure ModelEnv where
  load_ok : Bool
  encode : List String → Except String (List (List Rat))

/-- EmbeddingService.get_batch_embeddings from embedding_service.py: empty
input returns the empty list; a model-load failure propagates; an encode
failure is swallowed and one empty vector per input text is returned. -/
def EmbeddingService.get_batch_embeddings (env : ModelEnv) (texts : List String) :
    Except String (List (List Rat)) :=
  if texts = [] then .ok []
  else if env.load_ok = false then .error "model load failed"
  else
    match env.encode texts with
    | .ok embeddings => .ok embeddings
    | .error _ => .ok (texts.map (fun _ => []))

/-! ## Orchestrator (orchestrator.py)

The workflow body lives in an exception-over-state monad: state mutations
performed before an exception survive it, exactly as attribute mutations
do across a Python try block.  The carried state is the workflow state
paired with the list of checkpoint snapshots saved so far. -/

/-- Carried state: workflow state plus the checkpoints saved so far. -/
abbrev WfSt := ThreatForestState × List ThreatForestState

/-- Workflow monad: exceptions over mutable state. -/
abbrev WfM := ExceptT String (StateM WfSt)

/-- Read the current workflow state. -/
def getWf : WfM ThreatForestState := do return (← get).1

/-- Replace the current workflow state. -/
def putWf (s : ThreatForestState) : WfM Unit := modify (fun p => (s, p.2))

/-- StateManager.save_checkpoint, modelled as appending a snapshot of the
current workflow state to the checkpoint list. -/
def save_checkpoint : WfM Unit := modify (fun p => (p.1, p.2 ++ [p.1]))

/-- Raise the outcome of an external tool call into the workflow monad. -/
def liftRun {α : Type} (e : Except String α) : WfM α :=
  match e with
  | .ok a => pure a
  | .error msg => throw msg

/-- ThreatForestState.advance_to from state.py: validate the transition and
move current_stage, raising on an illegal transition.  The last_updated
timestamp refresh is not interpreted by any claim and is not modelled. -/
def advance_to (stage : WorkflowStage) : WfM Unit := do
  let s ← getWf
  if s.can_transition_to stage then putWf { s with current_stage := stage }
  else throw "Cannot transition"

/-- Outcomes of the per-stage external tool calls consumed by one
execute_workflow run.  Payload contents are opaque. -/
structure StageRuns where
  context_run : Except String String
  extraction_run : Except String String
  tree_run : Except String (List String)
  ttc_run : Except String (List String)
  summary_run : Except String (List String)

/-- Body of ThreatForestOrchestrator.execute_workflow inside its try block:
per stage, skip when the completion flag is set, otherwise advance, run
the tool, store the result, set the flag and write one checkpoint.  A
mapping failure is caught locally, marks mapping complete and continues; a
summary failure is re-raised with a wrapping message.  Progress emission,
console printing and output-directory file cleanup are side effects with
no bearing on state and are not modelled. -/
def workflowBody (runs : StageRuns) : WfM (List String) := do
  let s0 ← getWf
  if !s0.setup_complete then
    putWf { s0 with setup_complete := true, setup_result := some "UI pre-validated" }
    save_checkpoint
  let s1 ← getWf
  if !s1.context_complete then
    advance_to .CONTEXT_ANALYSIS
    let context_result ← liftRun runs.context_run
    let s ← getWf
    putWf { s with context_files := some context_result, context_complete := true }
    save_checkpoint
  let s2 ← getWf
  if !s2.extraction_complete then
    advance_to .EXTRACTION
    let extraction_result ← liftRun runs.extraction_run
    let s ← getWf
    putWf { s with extracted_info := some extraction_result, extraction_complete := true }
    save_checkpoint
  let s3 ← getWf
  if !s3.tree_generation_complete then
    advance_to .TREE_GENERATION
    let trees ← liftRun runs.tree_run
    let s ← getWf
    putWf { s with attack_trees := trees, tree_generation_complete := true }
    save_checkpoint
  let s4 ← getWf
  if !s4.mapping_complete then
    tryCatch
      (do
        advance_to .MAPPING
        let mapped ← liftRun runs.ttc_run
        let s ← getWf
        putWf { s with mapped_trees := mapped, attack_trees := mapped,
                       mapping_complete := true }
        save_checkpoint)
      (fun _ => do
        let s ← getWf
        putWf { s with mapping_complete := true })
  let s5 ← getWf
  if !s5.summary_complete then
    tryCatch
      (do
        advance_to .SUMMARY
        let files ← liftRun runs.summary_run
        let s ← getWf
        putWf { s with output_files := files, summary_complete := true }
        advance_to .COMPLETE
        save_checkpoint)
      (fun e => throw ("Summary generation failed: " ++ e))
  return (← getWf).output_files

/-- Run-result dictionary of execute_workflow: status, the failing stage
and error text on the error path, the output files on the success path. -/
structure WorkflowResult where
  status : String
  stage : Option WorkflowStage
  error : Option String
  output_files : List String
deriving DecidableEq, Repr

/-- ThreatForestOrchestrator.execute_workflow from orchestrator.py, run
from a given initial state: the outer except block catches any stage
failure and returns an error result naming the stage the state had
reached; nothing is added to state.errors and no further checkpoint is
written on that path. -/
def execute_workflow (runs : StageRuns) (state0 : ThreatForestState) :
    WorkflowResult × ThreatForestState × List ThreatForestState :=
  match (workflowBody runs).run.run (state0, []) with
  | (.ok files, (s, cps)) =>
      ({ status := "success", stage := none, error := none, output_files := files }, s, cps)
  | (.error e, (s, cps)) =>
      ({ status := "error", stage := some s.current_stage,
         error := some ("Workflow failed: " ++ e), output_files := [] }, s, cps)

/-- Fresh workflow state, as constructed at the start of a run. -/
def freshState (project_path bedrock_model : String) (aws_profile : Option String) :
    ThreatForestState :=
  { current_stage := .SETUP,
    started_at := "", last_updated := "",
    project_path := project_path, aws_profile := aws_profile,
    bedrock_model := bedrock_model,
    setup_complete := false, context_complete := false,
    extraction_complete := false, tree_generation_complete := false,
    mapping_complete := false, summary_complete := false,
    setup_result := none, context_files := none, extracted_info := none,
    attack_trees := [], mapped_trees := [], output_files := [], errors := [] }

/-! ## Concrete fixtures used by witnesses and counterexamples -/

/-- Simple technique node used by search fixtures. -/
def techA : TechniqueNode :=
  { id := "technique-T0", stix_id := "s0", name := "t0",
    description := "zzz", technique_ids := ["T0"],
    tactics := ["initial-access"], embedding := [1] }

/-- Second technique node, distinguishable from techA by name. -/
def techB : TechniqueNode :=
  { id := "technique-T1", stix_id := "s1", name := "t1",
    description := "zzz", technique_ids := ["T1"],
    tactics := ["execution"], embedding := [1] }

/-- Technique whose text shares exactly six vocabulary terms with the
boost-fixture step text. -/
def techBoost : TechniqueNode :=
  { id := "technique-T2", stix_id := "s2", name := "x",
    description := "aws s3 ec2 iam lambda rds tech", technique_ids := ["T2"],
    tactics := ["impact"], embedding := [1] }

/-- Step text containing exactly six vocabulary terms. -/
def stepBoost : String := "aws s3 ec2 iam lambda rds"

/-- Step text containing exactly two vocabulary terms. -/
def stepTwoTerms : String := "aws s3 attack"

/-- One-technique graph. -/
def graphOne : MitreAttackGraph :=
  { techniques := [techA], embedding_model := "modelA", embedding_dim := 1,
    created_at := "now", stix_version := "2.1" }

/-- Two-technique graph with identical embeddings, for tie-order checks. -/
def graphTwo : MitreAttackGraph :=
  { techniques := [techA, techB], embedding_model := "modelA", embedding_dim := 1,
    created_at := "now", stix_version := "2.1" }

/-- Graph holding the boost fixture technique. -/
def graphBoost : MitreAttackGraph :=
  { techniques := [techBoost], embedding_model := "modelA", embedding_dim := 1,
    created_at := "now", stix_version := "2.1" }

/-- Matcher environment whose kernel reports similarity 9/10 for every
pair, used to exercise the boost formula. -/
def envBoost : TTCMatcherEnv :=
  { graph := graphBoost, simFn := fun _ _ => 9/10,
    get_embedding := fun _ => [1], min_similarity := 3/10 }

/-- Matcher environment whose kernel reports similarity 1/4, strictly
below the 3/10 floor, used to show that a boost cannot rescue a candidate
already dropped by search. -/
def envLowRaw : TTCMatcherEnv :=
  { graph := graphBoost, simFn := fun _ _ => 1/4,
    get_embedding := fun _ => [1], min_similarity := 3/10 }

/-- File-system view with an existing, loadable graph and a source bundle
older than the graph file. -/
def fsFresh : GraphFS :=
  { graph_exists := true, load_result := .ok graphOne,
    stix_exists := true, graph_mtime := 10, stix_mtime := 5 }

/-- File-system view whose graph file exists but fails to load, with a
source bundle older than the graph file. -/
def fsBadLoad : GraphFS :=
  { graph_exists := true, load_result := .error "corrupt graph",
    stix_exists := true, graph_mtime := 10, stix_mtime := 5 }

/-- Build environment over fsBadLoad whose rebuild succeeds. -/
def envRebuild : BuildEnv := { fs := fsBadLoad, build_result := .ok graphOne }

/-- Embedding-service environment whose encode call returns one singleton
vector per text. -/
def envEncode : ModelEnv :=
  { load_ok := true, encode := fun ts => .ok (ts.map (fun _ => [1])) }

/-- Workflow state whose extraction flag is set while setup is not: a
later flag is true while an earlier required flag is false. -/
def cexResumeState : ThreatForestState :=
  { (freshState "p" "m" none) with extraction_complete := true }

/-- Stage runs whose extraction tool fails. -/
def cexRuns : StageRuns :=
  { context_run := .ok "ctx", extraction_run := .error "boom",
    tree_run := .ok [], ttc_run := .ok [], summary_run := .ok [] }

/-- Checkpoint written after the setup stage. -/
def cpSetup (p b : String) (a : Option String) : ThreatForestState :=
  { (freshState p b a) with setup_complete := true, setup_result := some "UI pre-validated" }

/-- Checkpoint written after the context-analysis stage. -/
def cpContext (p b : String) (a : Option String) (c : String) : ThreatForestState :=
  { (cpSetup p b a) with
    current_stage := WorkflowStage.CONTEXT_ANALYSIS
    context_files := some c
    context_complete := true }

/-- Checkpoint written after the extraction stage. -/
def cpExtraction (p b : String) (a : Option String) (c x : String) : ThreatForestState :=
  { (cpContext p b a c) with
    current_stage := WorkflowStage.EXTRACTION
    extracted_info := some x
    extraction_complete := true }

/-- Checkpoint written after the tree-generation stage. -/
def cpTree (p b : String) (a : Option String) (c x : String) (tr : List String) :
    ThreatForestState :=
  { (cpExtraction p b a c x) with
    current_stage := WorkflowStage.TREE_GENERATION
    attack_trees := tr
    tree_generation_complete := true }

/-- Checkpoint written after the mapping stage. -/
def cpMapping (p b : String) (a : Option String) (c x : String) (tr tt : List String) :
    ThreatForestState :=
  { (cpTree p b a c x tr) with
    current_stage := WorkflowStage.MAPPING
    mapped_trees := tt
    attack_trees := tt
    mapping_complete := true }

/-! ## Theorems -/

/-- Claim C2: can_transition_to returns true exactly when current_stage is
the immediate predecessor of the target stage in the fixed order, or
already equals the target (self-transition), with the one exception that
summary is also legal from tree_generation.  The right-hand side is the
spec-modelled transition predicate. -/
theorem claim_C2_transition_table (s : ThreatForestState) (stage : WorkflowStage) :
    s.can_transition_to stage = specLegalTransition s.current_stage stage := by
  have h : ∀ c st : WorkflowStage,
      (decide (c ∈ transitions st) || decide (c = st)) = specLegalTransition c st := by decide
  exact h s.current_stage stage

/-- Claim C6 (counterexample): is_valid_for_resume returns true on a state
whose extraction flag is set while setup is incomplete and current_stage
is still setup, although the claim demands false whenever a later flag is
true while an earlier required flag is false. -/
theorem claim_C6_counterexample :
    cexResumeState.extraction_complete = true
    ∧ cexResumeState.setup_complete = false
    ∧ cexResumeState.is_valid_for_resume.1 = true :=
  ⟨rfl, rfl, rfl⟩

/-- Claim C6 (amended): is_valid_for_resume is true exactly when
current_stage is not complete and every stage at or below current_stage
has its required prerequisite flag set (setup before context analysis,
context before extraction, extraction before tree generation, tree
generation before mapping and before summary).  Completion flags of
stages beyond current_stage are not examined. -/
theorem claim_C6_amended (s : ThreatForestState) :
    s.is_valid_for_resume.1 = true ↔
      (s.current_stage ≠ WorkflowStage.COMPLETE
       ∧ (1 ≤ stage_order s.current_stage → s.setup_complete = true)
       ∧ (2 ≤ stage_order s.current_stage → s.context_complete = true)
       ∧ (3 ≤ stage_order s.current_stage → s.extraction_complete = true)
       ∧ (4 ≤ stage_order s.current_stage → s.tree_generation_complete = true)) := by
  obtain ⟨stage, sa, lu, pp, ap, bm, su, co, ex, tr, mp, sm, r1, r2, r3, r4, r5, r6, er⟩ := s
  cases stage <;> cases su <;> cases co <;> cases ex <;> cases tr <;>
    simp [ThreatForestState.is_valid_for_resume, stage_checks, firstInvalid, stage_order]

/-- Claim C3 (counterexample): with an empty expected model name, which is
falsy in Python, the embedding-model validation is skipped and is_stale
returns false on timestamps alone, although the empty name differs from
the persisted model name. -/
theorem claim_C3_counterexample :
    GraphStore.is_stale fsFresh (some "") = false
    ∧ ("" : String) ≠ graphOne.embedding_model :=
  ⟨rfl, by decide⟩

/-- Claim C3 (amended): for every persisted graph that loads successfully
and every non-empty expected embedding model name, is_stale returns true
whenever the expected name differs from the loaded graph embedding model,
regardless of the modification timestamps of the graph file and the
bundle (the timestamp comparison is never consulted on this path). -/
theorem claim_C3_amended (fs : GraphFS) (g : MitreAttackGraph) (m : String)
    (h1 : fs.graph_exists = true) (h2 : fs.load_result = Except.ok g)
    (h3 : m ≠ "") (h4 : g.embedding_model ≠ m) :
    GraphStore.is_stale fs (some m) = true := by
  simp [GraphStore.is_stale, h1, h2, h3, h4]

/-- Claim C3 (witness): the amended staleness statement at a concrete
file-system view and model name. -/
theorem claim_C3_witness : GraphStore.is_stale fsFresh (some "modelB") = true :=
  claim_C3_amended fsFresh graphOne "modelB" rfl rfl (by decide) (by decide)

/-- Claim C8: when a persisted graph exists, is not stale and force_rebuild
is false, a load failure is not propagated: get_or_build falls back to
building a new graph from the bundle, saves it and returns it. -/
theorem claim_C8_load_fallback (env : BuildEnv) (em : String)
    (g : MitreAttackGraph) (e : String)
    (h1 : env.fs.graph_exists = true)
    (h2 : GraphStore.is_stale env.fs (some em) = false)
    (h3 : env.fs.load_result = Except.error e)
    (h4 : env.build_result = Except.ok g) :
    (GraphBuilder.get_or_build env em false).result = Except.ok g
    ∧ (GraphBuilder.get_or_build env em false).saved = [g] := by
  simp [GraphBuilder.get_or_build, buildAndSave, h1, h2, h3, h4]

/-- Claim C8 (witness): the load-failure fallback at a concrete build
environment: the graph exists, is not stale, loading fails, and the
freshly built graph is saved and returned. -/
theorem claim_C8_witness :
    (GraphBuilder.get_or_build envRebuild "" false).result = Except.ok graphOne
    ∧ (GraphBuilder.get_or_build envRebuild "" false).saved = [graphOne] :=
  claim_C8_load_fallback envRebuild "" graphOne "corrupt graph" rfl rfl rfl rfl

/-- Claim C10: for every non-empty list of texts, with the model loaded
and the collaborator contract that a successful batch encode returns one
vector per text, get_batch_embeddings returns a list of exactly the input
length: on encode success it is the encoded list itself (positional
correspondence), and on encode failure no error is raised and one empty
vector per text is returned. -/
theorem claim_C10_batch_embeddings (env : ModelEnv) (texts : List String)
    (h1 : texts ≠ []) (h2 : env.load_ok = true)
    (hc : ∀ es, env.encode texts = Except.ok es → es.length = texts.length) :
    ∃ out, EmbeddingService.get_batch_embeddings env texts = Except.ok out
      ∧ out.length = texts.length
      ∧ ((∃ es, env.encode texts = Except.ok es ∧ out = es)
         ∨ (∃ msg, env.encode texts = Except.error msg
              ∧ out = texts.map (fun _ => ([] : List Rat)))) := by
  cases henc : env.encode texts with
  | ok es =>
      refine ⟨es, ?_, hc es henc, Or.inl ⟨es, rfl, rfl⟩⟩
      simp [EmbeddingService.get_batch_embeddings, h1, h2, henc]
  | error msg =>
      refine ⟨texts.map (fun _ => []), ?_, by simp, Or.inr ⟨msg, rfl, rfl⟩⟩
      simp [EmbeddingService.get_batch_embeddings, h1, h2, henc]

/-- Claim C10 (witness): the batch-embedding contract at a concrete
environment and two-text input. -/
theorem claim_C10_witness :
    ∃ out, EmbeddingService.get_batch_embeddings envEncode ["a", "b"] = Except.ok out
      ∧ out.length = (["a", "b"] : List String).length
      ∧ ((∃ es, envEncode.encode ["a", "b"] = Except.ok es ∧ out = es)
         ∨ (∃ msg, envEncode.encode ["a", "b"] = Except.error msg
              ∧ out = (["a", "b"] : List String).map (fun _ => ([] : List Rat)))) :=
  claim_C10_batch_embeddings envEncode ["a", "b"] (by simp) rfl
    (fun es h => by
      simp only [envEncode, List.map] at h
      cases h
      rfl)

/-- Helper: the argsort output is sorted for the index comparator. -/
theorem argsort_pairwise (sims : List Rat) :
    (argsort sims).Pairwise (argsortRel sims) :=
  List.sorted_insertionSort (argsortRel sims) (List.range sims.length)

/-- Helper: argsort permutes the index range. -/
theorem argsort_perm (sims : List Rat) :
    (argsort sims).Perm (List.range sims.length) :=
  List.perm_insertionSort (argsortRel sims) (List.range sims.length)

/-- Helper: argsort has no duplicate indices. -/
theorem argsort_nodup (sims : List Rat) : (argsort sims).Nodup :=
  ((argsort_perm sims).nodup_iff).mpr (List.nodup_range _)

/-- Helper: a tail slice is a sublist. -/
theorem takeLast_sublist (l : List Nat) (k : Nat) : (takeLast l k).Sublist l := by
  unfold takeLast
  split
  · exact List.Sublist.refl l
  · exact List.drop_sublist _ _

/-- Helper: for positive k the tail slice has at most k elements. -/
theorem takeLast_length_le (l : List Nat) (k : Nat) (hk : 1 ≤ k) :
    (takeLast l k).length ≤ k := by
  unfold takeLast
  split
  · omega
  · rw [List.length_drop]
    omega

/-- Helper: along the selected indices, the comparator holds backwards, so
the selection is descending. -/
theorem searchIndices_pairwise (sims : List Rat) (k : Nat) :
    (searchIndices sims k).Pairwise (fun i j => argsortRel sims j i) := by
  unfold searchIndices
  simp only [List.pairwise_reverse]
  exact List.Pairwise.sublist (takeLast_sublist _ _) (argsort_pairwise sims)

/-- Helper: the selected indices are distinct. -/
theorem searchIndices_nodup (sims : List Rat) (k : Nat) :
    (searchIndices sims k).Nodup := by
  unfold searchIndices
  rw [List.nodup_reverse]
  exact List.Nodup.sublist (takeLast_sublist _ _) (argsort_nodup sims)

/-- Helper: dropping via filterMap with an if-none body is filtering then
mapping. -/
theorem filterMap_drop_below {α β : Type} (c : α → Prop) [DecidablePred c] (g : α → β)
    (l : List α) :
    (l.filterMap (fun a => if c a then none else some (g a))) =
      (l.filter (fun a => !(decide (c a)))).map g := by
  induction l with
  | nil => rfl
  | cons x xs ih =>
      by_cases h : c x
      · simp [List.filterMap_cons, List.filter_cons, h, ih]
      · simp [List.filterMap_cons, List.filter_cons, h, ih]

/-- Helper: closed form of search for a non-empty query. -/
theorem search_eq (graph : MitreAttackGraph) (simFn : List Rat → List Rat → Rat)
    (q : List Rat) (k : Nat) (ms : Rat) (hq : q ≠ []) :
    VectorSearch.search graph simFn q k ms =
      ((searchIndices (simsOf graph simFn q) k).filter
        (fun idx => !(decide ((simsOf graph simFn q).getD idx 0 < ms)))).map
        (mkSearchResult graph (simsOf graph simFn q)) := by
  unfold VectorSearch.search
  rw [if_neg hq]
  exact filterMap_drop_below (fun idx => (simsOf graph simFn q).getD idx 0 < ms)
    (mkSearchResult graph (simsOf graph simFn q)) (searchIndices (simsOf graph simFn q) k)

/-- Helper: every returned result clears the floor. -/
theorem search_min_floor (graph : MitreAttackGraph) (simFn : List Rat → List Rat → Rat)
    (q : List Rat) (k : Nat) (ms : Rat) (r : MatchResult)
    (hr : r ∈ VectorSearch.search graph simFn q k ms) : ms ≤ r.similarity := by
  by_cases hq : q = []
  · simp [VectorSearch.search, hq] at hr
  · rw [search_eq graph simFn q k ms hq] at hr
    obtain ⟨idx, hidx, rfl⟩ := List.mem_map.mp hr
    have h2 := (List.mem_filter.mp hidx).2
    simp only [Bool.not_eq_true', decide_eq_false_iff_not, not_lt] at h2
    exact h2

/-- Helper: for positive top_k at most top_k results are returned. -/
theorem search_length_le (graph : MitreAttackGraph) (simFn : List Rat → List Rat → Rat)
    (q : List Rat) (k : Nat) (ms : Rat) (hk : 1 ≤ k) :
    (VectorSearch.search graph simFn q k ms).length ≤ k := by
  by_cases hq : q = []
  · simp [VectorSearch.search, hq]
  · rw [search_eq graph simFn q k ms hq, List.length_map]
    refine le_trans (List.Sublist.length_le (List.filter_sublist _)) ?_
    unfold searchIndices
    rw [List.length_reverse]
    exact takeLast_length_le _ _ hk

/-- Helper: the comparator implies a value inequality. -/
theorem argsortRel_le (sims : List Rat) {i j : Nat} (h : argsortRel sims i j) :
    sims.getD i 0 ≤ sims.getD j 0 := by
  rcases h with h | ⟨h, _⟩
  · exact le_of_lt h
  · exact le_of_eq h

/-- Helper: returned similarities are non-increasing. -/
theorem search_sorted (graph : MitreAttackGraph) (simFn : List Rat → List Rat → Rat)
    (q : List Rat) (k : Nat) (ms : Rat) :
    List.Sorted (fun a b => b ≤ a)
      ((VectorSearch.search graph simFn q k ms).map MatchResult.similarity) := by
  by_cases hq : q = []
  · simp [VectorSearch.search, hq]
  · rw [search_eq graph simFn q k ms hq, List.map_map]
    exact List.pairwise_map.mpr
      (List.Pairwise.filter _
        ((searchIndices_pairwise _ _).imp (fun h => argsortRel_le _ h)))

/-- Claim C1 (counterexample): with top_k equal to 0 the Python slice
index -0 denotes the whole list, so search returns one result on a
one-technique graph although the claim demands at most zero results. -/
theorem claim_C1_counterexample :
    ¬ ((VectorSearch.search graphOne (fun _ _ => (1:Rat)/2) [1] 0 (3/10)).length ≤ 0) := by
  norm_num [VectorSearch.search, simsOf, searchIndices, argsort, argsortRel, takeLast,
    List.insertionSort, List.orderedInsert, List.range_succ, graphOne, techA,
    mkSearchResult, List.getD, List.filterMap_cons]

/-- Claim C1 (amended): for every query vector, min_similarity and top_k
at least 1, search returns at most top_k results, the returned results
are ordered non-increasing in similarity, and every returned result has
similarity at least min_similarity (the ordering and floor parts hold for
every top_k; the count bound fails only for top_k equal to 0). -/
theorem claim_C1_amended (graph : MitreAttackGraph) (simFn : List Rat → List Rat → Rat)
    (q : List Rat) (k : Nat) (ms : Rat) (hk : 1 ≤ k) :
    (VectorSearch.search graph simFn q k ms).length ≤ k
    ∧ List.Sorted (fun a b => b ≤ a)
        ((VectorSearch.search graph simFn q k ms).map MatchResult.similarity)
    ∧ ∀ r ∈ VectorSearch.search graph simFn q k ms, ms ≤ r.similarity :=
  ⟨search_length_le graph simFn q k ms hk, search_sorted graph simFn q k ms,
   fun r hr => search_min_floor graph simFn q k ms r hr⟩

/-- Claim C1 (witness): the amended search contract at a concrete
two-technique graph with top_k 2 and floor 3/10. -/
theorem claim_C1_witness :
    (VectorSearch.search graphTwo (fun _ _ => (1:Rat)/2) [1] 2 (3/10)).length ≤ 2
    ∧ List.Sorted (fun a b => b ≤ a)
        ((VectorSearch.search graphTwo (fun _ _ => (1:Rat)/2) [1] 2 (3/10)).map
          MatchResult.similarity)
    ∧ ∀ r ∈ VectorSearch.search graphTwo (fun _ _ => (1:Rat)/2) [1] 2 (3/10),
        (3:Rat)/10 ≤ r.similarity :=
  claim_C1_amended graphTwo (fun _ _ => (1:Rat)/2) [1] 2 (3/10) (by norm_num)

/-- Claim C9 (counterexample): two techniques with equal similarity come
back in reversed node order, not original node order: the ascending
argsort puts equal values in ascending index order and the final reversal
flips them. -/
theorem claim_C9_counterexample :
    (VectorSearch.search graphTwo (fun _ _ => (1:Rat)/2) [1] 3 (3/10)).map
        (fun r => r.technique.name) = ["t1", "t0"]
    ∧ graphTwo.techniques.map TechniqueNode.name = ["t0", "t1"] := by
  constructor
  · norm_num [VectorSearch.search, simsOf, searchIndices, argsort, argsortRel, takeLast,
      List.insertionSort, List.orderedInsert, List.range_succ, graphTwo, techA, techB,
      mkSearchResult, List.getD, List.filterMap_cons]
  · rfl

/-- Claim C9 (amended): search maps its result construction over the
descending index selection, and along that selection ties in similarity
are ordered by descending original node index (the earlier result has the
larger index), not by original node order. -/
theorem claim_C9_amended (graph : MitreAttackGraph) (simFn : List Rat → List Rat → Rat)
    (q : List Rat) (k : Nat) (ms : Rat) (hq : q ≠ []) :
    VectorSearch.search graph simFn q k ms =
      ((searchIndices (simsOf graph simFn q) k).filter
        (fun idx => !(decide ((simsOf graph simFn q).getD idx 0 < ms)))).map
        (mkSearchResult graph (simsOf graph simFn q))
    ∧ ((searchIndices (simsOf graph simFn q) k).filter
        (fun idx => !(decide ((simsOf graph simFn q).getD idx 0 < ms)))).Pairwise
        (fun i j => (simsOf graph simFn q).getD j 0 < (simsOf graph simFn q).getD i 0
          ∨ ((simsOf graph simFn q).getD j 0 = (simsOf graph simFn q).getD i 0 ∧ j < i)) := by
  refine ⟨search_eq graph simFn q k ms hq, ?_⟩
  apply List.Pairwise.filter
  have h1 := searchIndices_pairwise (simsOf graph simFn q) k
  have h2 : (searchIndices (simsOf graph simFn q) k).Pairwise (fun i j => i ≠ j) :=
    searchIndices_nodup _ _
  refine (h1.and h2).imp ?_
  intro i j h
  obtain ⟨hrel, hne⟩ := h
  rcases hrel with hlt | ⟨heq, hle⟩
  · exact Or.inl hlt
  · exact Or.inr ⟨heq, Nat.lt_of_le_of_ne hle (Ne.symm hne)⟩

/-- Claim C9 (witness): the amended tie-order statement at a concrete
two-technique graph with equal similarities. -/
theorem claim_C9_witness :
    VectorSearch.search graphTwo (fun _ _ => (1:Rat)/2) [1] 3 (3/10) =
      ((searchIndices (simsOf graphTwo (fun _ _ => (1:Rat)/2) [1]) 3).filter
        (fun idx =>
          !(decide ((simsOf graphTwo (fun _ _ => (1:Rat)/2) [1]).getD idx 0 < 3/10)))).map
        (mkSearchResult graphTwo (simsOf graphTwo (fun _ _ => (1:Rat)/2) [1]))
    ∧ ((searchIndices (simsOf graphTwo (fun _ _ => (1:Rat)/2) [1]) 3).filter
        (fun idx =>
          !(decide ((simsOf graphTwo (fun _ _ => (1:Rat)/2) [1]).getD idx 0 < 3/10)))).Pairwise
        (fun i j =>
          (simsOf graphTwo (fun _ _ => (1:Rat)/2) [1]).getD j 0
              < (simsOf graphTwo (fun _ _ => (1:Rat)/2) [1]).getD i 0
            ∨ ((simsOf graphTwo (fun _ _ => (1:Rat)/2) [1]).getD j 0
                  = (simsOf graphTwo (fun _ _ => (1:Rat)/2) [1]).getD i 0 ∧ j < i)) :=
  claim_C9_amended graphTwo (fun _ _ => (1:Rat)/2) [1] 3 (3/10) (by simp)

/-- Claim C4 (counterexample): a step and technique sharing exactly six
domain terms with raw similarity 9/10 produce the boosted similarity
9/10 * min(1 + 0.6, 1.5) = 27/20, which differs from the claimed formula
min(9/10 * (1 + 0.6), 1.5) = 36/25. -/
theorem claim_C4_counterexample :
    ((TTCMatcher.match_steps envBoost [stepBoost] 3).map
        (fun sm => sm.matchesList.map TTCMatch.similarity)) = [[27/20]]
    ∧ sharedTermCount stepBoost techBoost = 6
    ∧ (27:Rat)/20 ≠ min ((9/10) * (1 + (1/10) * (6:Rat))) (3/2) := by
  have hterms : awsTermsInStep stepBoost = ["aws", "s3", "ec2", "iam", "lambda", "rds"] := rfl
  have c1 : strContains (techText techBoost) "aws" = true := rfl
  have c2 : strContains (techText techBoost) "s3" = true := rfl
  have c3 : strContains (techText techBoost) "ec2" = true := rfl
  have c4 : strContains (techText techBoost) "iam" = true := rfl
  have c5 : strContains (techText techBoost) "lambda" = true := rfl
  have c6 : strContains (techText techBoost) "rds" = true := rfl
  refine ⟨?_, rfl, by norm_num⟩
  norm_num [TTCMatcher.match_steps, TTCMatcher.match_step, TTCMatcher.boostResult,
    VectorSearch.search, simsOf, searchIndices, argsort, argsortRel, takeLast,
    List.insertionSort, List.orderedInsert, List.range_succ, envBoost, graphBoost,
    mkSearchResult, mkTTCMatch, List.getD, List.filterMap_cons, List.filter_cons,
    hterms, c1, c2, c3, c4, c5, c6]
  simp

/-- Claim C4 (amended): for a step and candidate technique sharing exactly
n domain terms, any match emitted by the boosting step has similarity
raw * min(1 + 0.1 n, 1.5), the raw similarity multiplied by the capped
boost factor; with n = 0 the similarity equals raw exactly. -/
theorem claim_C4_amended (ms raw : Rat) (step : String) (tech : TechniqueNode) (m : TTCMatch)
    (h : TTCMatcher.boostResult ms (awsTermsInStep step) tech raw = some m) :
    m.similarity = raw * min (1 + (1/10) * ((sharedTermCount step tech : Nat) : Rat)) (3/2)
    ∧ (sharedTermCount step tech = 0 → m.similarity = raw) := by
  have hmt : sharedTermCount step tech
      = ((awsTermsInStep step).filter (fun term => strContains (techText tech) term)).length :=
    rfl
  unfold TTCMatcher.boostResult at h
  by_cases h1 : awsTermsInStep step = []
  · rw [if_pos h1] at h
    cases h
    have hzero : sharedTermCount step tech = 0 := by rw [hmt, h1]; rfl
    constructor
    · rw [hzero]
      show raw = raw * min (1 + (1/10) * ((0:Nat) : Rat)) (3/2)
      norm_num
    · intro _
      rfl
  · rw [if_neg h1] at h
    simp only [] at h
    by_cases h2 : (awsTermsInStep step).filter (fun term => strContains (techText tech) term) = []
    · rw [if_pos h2] at h
      cases h
      have hzero : sharedTermCount step tech = 0 := by rw [hmt, h2]; rfl
      constructor
      · rw [hzero]
        show raw = raw * min (1 + (1/10) * ((0:Nat) : Rat)) (3/2)
        norm_num
      · intro _
        rfl
    · rw [if_neg h2] at h
      split at h
      · exact absurd h (by simp)
      · cases h
        refine ⟨by rw [hmt]; rfl, ?_⟩
        intro hzero
        exact absurd (List.length_eq_zero.mp (hmt ▸ hzero)) h2

/-- Claim C4 (witness): the amended boost formula at a concrete step and
technique sharing one domain term with raw similarity 1/2. -/
theorem claim_C4_witness :
    ∃ m, TTCMatcher.boostResult (3/10) (awsTermsInStep "aws attack") techBoost (1/2) = some m
      ∧ m.similarity
          = (1/2) * min (1 + (1/10) * ((sharedTermCount "aws attack" techBoost : Nat) : Rat)) (3/2)
      ∧ (sharedTermCount "aws attack" techBoost = 0 → m.similarity = 1/2) := by
  have hterms : awsTermsInStep "aws attack" = ["aws"] := rfl
  have hmt : (["aws"] : List String).filter (fun term => strContains (techText techBoost) term)
      = ["aws"] := rfl
  have hs : (TTCMatcher.boostResult (3/10) (awsTermsInStep "aws attack") techBoost (1/2)).isSome
      = true := by
    norm_num [TTCMatcher.boostResult, hterms, hmt]
  obtain ⟨m, hm⟩ := Option.isSome_iff_exists.mp hs
  exact ⟨m, hm, claim_C4_amended (3/10) (1/2) "aws attack" techBoost m hm⟩

/-- Claim C5 (counterexample): a candidate whose pre-boost similarity 1/4
is below the 3/10 floor is dropped inside search and never reaches the
boost, so the step yields no output at all, although its boosted value
1/4 * min(1 + 0.2, 1.5) = 3/10 would clear the floor. -/
theorem claim_C5_counterexample :
    TTCMatcher.match_steps envLowRaw [stepTwoTerms] 3 = []
    ∧ sharedTermCount stepTwoTerms techBoost = 2
    ∧ (3:Rat)/10 ≤ (1/4) * min (1 + (1/10) * (2:Rat)) (3/2) := by
  refine ⟨?_, rfl, by norm_num⟩
  norm_num [TTCMatcher.match_steps, TTCMatcher.match_step, VectorSearch.search, simsOf,
    searchIndices, argsort, argsortRel, takeLast, List.insertionSort, List.orderedInsert,
    List.range_succ, envLowRaw, graphBoost, mkSearchResult, List.getD, List.filterMap_cons]

/-- Claim C5 (amended): the min_similarity floor is applied to the
pre-boost similarity inside search, so every candidate reaching the boost
already clears the floor and a below-floor candidate can never be rescued
by a boost; conversely, for a non-negative floor, a candidate that passed
the floor pre-boost is never removed by the post-boost re-filter, since
boosting never decreases the similarity. -/
theorem claim_C5_amended :
    (∀ (graph : MitreAttackGraph) (simFn : List Rat → List Rat → Rat) (q : List Rat)
        (k : Nat) (ms : Rat) (r : MatchResult),
        r ∈ VectorSearch.search graph simFn q k ms → ms ≤ r.similarity)
    ∧ (∀ (ms raw : Rat) (terms : List String) (tech : TechniqueNode),
        0 ≤ ms → ms ≤ raw →
        (TTCMatcher.boostResult ms terms tech raw).isSome = true) := by
  constructor
  · exact fun graph simFn q k ms r hr => search_min_floor graph simFn q k ms r hr
  · intro ms raw terms tech h0 hr
    unfold TTCMatcher.boostResult
    by_cases h1 : terms = []
    · rw [if_pos h1]
      rfl
    · rw [if_neg h1]
      show (if terms.filter (fun term => strContains (techText tech) term) = []
          then some (mkTTCMatch tech raw)
          else
            if raw * min (1 + (1/10) *
                ((terms.filter (fun term => strContains (techText tech) term)).length : Rat))
                (3/2) < ms
            then none
            else some (mkTTCMatch tech (raw * min (1 + (1/10) *
                ((terms.filter (fun term => strContains (techText tech) term)).length : Rat))
                (3/2)))).isSome = true
      by_cases h2 : terms.filter (fun term => strContains (techText tech) term) = []
      · rw [if_pos h2]
        rfl
      · rw [if_neg h2]
        have hcast : (0:Rat)
            ≤ ((terms.filter (fun term => strContains (techText tech) term)).length : Rat) :=
          Nat.cast_nonneg _
        have hb : (1:Rat) ≤ min (1 + (1/10) *
            ((terms.filter (fun term => strContains (techText tech) term)).length : Rat))
            (3/2) := by
          refine le_min (by linarith) (by norm_num)
        have hge : raw ≤ raw * min (1 + (1/10) *
            ((terms.filter (fun term => strContains (techText tech) term)).length : Rat))
            (3/2) := by
          calc raw = raw * 1 := (mul_one raw).symm
            _ ≤ _ := mul_le_mul_of_nonneg_left hb (le_trans h0 hr)
        rw [if_neg (not_lt.mpr (le_trans hr hge))]
        rfl

/-- Claim C5 (witness): the amended floor behaviour at a concrete search
result with similarity 1/2 over the floor 3/10, and a concrete candidate
surviving the post-boost re-filter. -/
theorem claim_C5_witness :
    (3:Rat)/10
        ≤ (mkSearchResult graphOne (simsOf graphOne (fun _ _ => (1:Rat)/2) [1]) 0).similarity
    ∧ (TTCMatcher.boostResult (3/10) [] techA (1/2)).isSome = true := by
  constructor
  · apply claim_C5_amended.1 graphOne (fun _ _ => (1:Rat)/2) [1] 3 (3/10)
    have hsearch : VectorSearch.search graphOne (fun _ _ => (1:Rat)/2) [1] 3 (3/10)
        = [mkSearchResult graphOne (simsOf graphOne (fun _ _ => (1:Rat)/2) [1]) 0] := by
      norm_num [VectorSearch.search, searchIndices, argsort, argsortRel, takeLast,
        List.insertionSort, List.orderedInsert, List.range_succ, List.filterMap_cons,
        simsOf, graphOne, List.getD, mkSearchResult]
    rw [hsearch]
    exact List.mem_singleton.mpr rfl
  · exact claim_C5_amended.2 (3/10) (1/2) [] techA (by norm_num) (by norm_num)

/-- Claim C7 (counterexample): when the extraction stage raises, the
orchestrator returns an error result naming the stage, but nothing is
recorded into state.errors, which stays empty, although the claim says
the failure is recorded there. -/
theorem claim_C7_counterexample :
    (execute_workflow cexRuns (freshState "p" "m" none)).1.status = "error"
    ∧ (execute_workflow cexRuns (freshState "p" "m" none)).1.stage
        = some WorkflowStage.EXTRACTION
    ∧ (execute_workflow cexRuns (freshState "p" "m" none)).2.1.errors = [] :=
  ⟨rfl, rfl, rfl⟩

/-- Claim C7 (amended): whenever the context-analysis, extraction,
tree-generation or summary stage raises an error on a fresh run, the
orchestrator catches it and returns an error run result naming the stage
the run had reached; state.errors is left unchanged, not appended to; no
further checkpoint is written, so the checkpoints already written for the
previously completed stages are left unchanged, and the last of them
remains valid for a later resume.  (Mapping-stage failures are instead
swallowed locally and the run continues.)  The final tuple lists the run
result, the final state and the saved checkpoints. -/
theorem claim_C7_amended (p b c x m : String) (a : Option String)
    (er : Except String String) (etr ett esu : Except String (List String))
    (tr tt : List String) :
    (execute_workflow
        { context_run := .error m, extraction_run := er, tree_run := etr,
          ttc_run := ett, summary_run := esu } (freshState p b a)
      = ({ status := "error", stage := some WorkflowStage.CONTEXT_ANALYSIS,
           error := some ("Workflow failed: " ++ m), output_files := [] },
         { (cpSetup p b a) with current_stage := WorkflowStage.CONTEXT_ANALYSIS },
         [cpSetup p b a])
     ∧ (execute_workflow
          { context_run := .error m, extraction_run := er, tree_run := etr,
            ttc_run := ett, summary_run := esu } (freshState p b a)).2.1.errors
        = (freshState p b a).errors
     ∧ (cpSetup p b a).is_valid_for_resume.1 = true)
    ∧ (execute_workflow
        { context_run := .ok c, extraction_run := .error m, tree_run := etr,
          ttc_run := ett, summary_run := esu } (freshState p b a)
      = ({ status := "error", stage := some WorkflowStage.EXTRACTION,
           error := some ("Workflow failed: " ++ m), output_files := [] },
         { (cpContext p b a c) with current_stage := WorkflowStage.EXTRACTION },
         [cpSetup p b a, cpContext p b a c])
     ∧ (execute_workflow
          { context_run := .ok c, extraction_run := .error m, tree_run := etr,
            ttc_run := ett, summary_run := esu } (freshState p b a)).2.1.errors
        = (freshState p b a).errors
     ∧ (cpContext p b a c).is_valid_for_resume.1 = true)
    ∧ (execute_workflow
        { context_run := .ok c, extraction_run := .ok x, tree_run := .error m,
          ttc_run := ett, summary_run := esu } (freshState p b a)
      = ({ status := "error", stage := some WorkflowStage.TREE_GENERATION,
           error := some ("Workflow failed: " ++ m), output_files := [] },
         { (cpExtraction p b a c x) with current_stage := WorkflowStage.TREE_GENERATION },
         [cpSetup p b a, cpContext p b a c, cpExtraction p b a c x])
     ∧ (execute_workflow
          { context_run := .ok c, extraction_run := .ok x, tree_run := .error m,
            ttc_run := ett, summary_run := esu } (freshState p b a)).2.1.errors
        = (freshState p b a).errors
     ∧ (cpExtraction p b a c x).is_valid_for_resume.1 = true)
    ∧ (execute_workflow
        { context_run := .ok c, extraction_run := .ok x, tree_run := .ok tr,
          ttc_run := .ok tt, summary_run := .error m } (freshState p b a)
      = ({ status := "error", stage := some WorkflowStage.SUMMARY,
           error := some ("Workflow failed: " ++ ("Summary generation failed: " ++ m)),
           output_files := [] },
         { (cpMapping p b a c x tr tt) with current_stage := WorkflowStage.SUMMARY },
         [cpSetup p b a, cpContext p b a c, cpExtraction p b a c x,
          cpTree p b a c x tr, cpMapping p b a c x tr tt])
     ∧ (execute_workflow
          { context_run := .ok c, extraction_run := .ok x, tree_run := .ok tr,
            ttc_run := .ok tt, summary_run := .error m } (freshState p b a)).2.1.errors
        = (freshState p b a).errors
     ∧ (cpMapping p b a c x tr tt).is_valid_for_resume.1 = true) :=
  ⟨⟨rfl, rfl, rfl⟩, ⟨rfl, rfl, rfl⟩, ⟨rfl, rfl, rfl⟩, ⟨rfl, rfl, rfl⟩⟩

end ThreatForest
